import Mathlib

/-
  Verification development for the Janus RabbitMQ event handler plugin
  (src/src/events/janus_rabbitmqevh.c).

  The plugin's data and control flow are embedded shallowly:
  * json_t values (jansson) are modelled by the inductive family
    `Json`/`JArr`/`JObj`; `json_dumps` restricted to the three flag
    combinations the plugin configures (indented-3 / plain / compact, all
    with JSON_PRESERVE_ORDER) is modelled by `dumpJson`.
  * Queue items are `Item`: either a real event (`Item.ev`) or the
    address-distinguished sentinel `&exit_event` (`Item.exitEvent`).
  * The consumer thread `jns_rmqevh_hdlr` (lines 561-632) is modelled per
    outer-loop iteration by `jns_rmqevh_hdlr_iter`, with the inner
    grouping drain (lines 575-599) as `collectGroup`/`collectBatch`.
  * The heartbeat thread `jns_rmqevh_hrtbt` (lines 636-680) is modelled
    per iteration by `jns_rmqevh_hrtbt_iter`.
  * `janus_rabbitmqevh_connect` (lines 346-429) is modelled over an
    environment recording the outcome of each external AMQP call.
  External library calls (amqp_*, json_dumps success) are oracles: their
  outcomes are inputs to the model, while all control flow around them is
  translated from the C source.
-/

namespace RMQEvh

mutual

/-- Model of a jansson `json_t` value.  Object fields are kept in insertion
order, matching `JSON_PRESERVE_ORDER` (the plugin always sets it). -/
inductive Json where
  | null : Json
  | bool (b : Bool) : Json
  | int (n : Int) : Json
  | str (s : String) : Json
  | arr (elems : JArr) : Json
  | obj (fields : JObj) : Json

/-- The element list of a JSON array. -/
inductive JArr where
  | nil : JArr
  | cons (hd : Json) (tl : JArr) : JArr

/-- The field list of a JSON object, in insertion order. -/
inductive JObj where
  | nil : JObj
  | cons (key : String) (val : Json) (tl : JObj) : JObj

end

/-- Build a JSON array value from a Lean list of values. -/
def JArr.ofList : List Json → JArr
  | [] => JArr.nil
  | j :: js => JArr.cons j (JArr.ofList js)

/-- The three serialization modes the plugin can configure (lines 175-191):
`indented` = JSON_INDENT(3), `plain` = JSON_INDENT(0), `compact` = JSON_COMPACT,
each together with JSON_PRESERVE_ORDER. -/
inductive JsonFmt where
  | indented : JsonFmt
  | plain : JsonFmt
  | compact : JsonFmt
deriving DecidableEq, Repr

/-- jansson string escaping (quotes, backslashes, newlines; other characters
pass through — sufficient for the values this development manipulates). -/
def escapeChar (c : Char) : String :=
  if c = '"' then "\\\""
  else if c = '\\' then "\\\\"
  else if c = '\n' then "\\n"
  else String.mk [c]

def escapeString (s : String) : String :=
  String.join (s.toList.map escapeChar)

def dumpString (s : String) : String :=
  "\"" ++ escapeString s ++ "\""

/-- jansson's `dump_indent`: with a positive indent, a newline plus
`indent * depth` spaces; in plain (indent 0) mode a single space at item
separators; in compact mode nothing. -/
def dumpIndent (fmt : JsonFmt) (depth : Nat) (space : Bool) : String :=
  match fmt with
  | .indented => "\n" ++ String.mk (List.replicate (3 * depth) ' ')
  | .plain => if space then " " else ""
  | .compact => ""

/-- jansson's key/value separator: ":" when compact, ": " otherwise. -/
def keySep (fmt : JsonFmt) : String :=
  if fmt = JsonFmt.compact then ":" else ": "

mutual

/-- Model of jansson `json_dumps` (via `do_dump`) for the flag sets the
plugin uses.  Containers are rendered as an opening bracket, the items
separated by "," plus `dumpIndent`, and a closing bracket. -/
def dumpJson (fmt : JsonFmt) (depth : Nat) : Json → String
  | .null => "null"
  | .bool b => if b then "true" else "false"
  | .int n => toString n
  | .str s => dumpString s
  | .arr JArr.nil => "[" ++ "]"
  | .arr (JArr.cons e tl) =>
      "[" ++ (dumpIndent fmt (depth + 1) false ++ dumpElems fmt (depth + 1) (JArr.cons e tl) ++
        dumpIndent fmt depth false ++ "]")
  | .obj JObj.nil => "\x7b" ++ "\x7d"
  | .obj (JObj.cons k v tl) =>
      "\x7b" ++ (dumpIndent fmt (depth + 1) false ++ dumpFields fmt (depth + 1) (JObj.cons k v tl) ++
        dumpIndent fmt depth false ++ "\x7d")

/-- Array elements, comma-separated. -/
def dumpElems (fmt : JsonFmt) (depth : Nat) : JArr → String
  | JArr.nil => ""
  | JArr.cons e JArr.nil => dumpJson fmt depth e
  | JArr.cons e tl =>
      dumpJson fmt depth e ++ "," ++ dumpIndent fmt depth true ++ dumpElems fmt depth tl

/-- Object fields, comma-separated, keys in insertion order. -/
def dumpFields (fmt : JsonFmt) (depth : Nat) : JObj → String
  | JObj.nil => ""
  | JObj.cons k v JObj.nil => dumpString k ++ keySep fmt ++ dumpJson fmt depth v
  | JObj.cons k v tl =>
      dumpString k ++ keySep fmt ++ dumpJson fmt depth v ++ "," ++
        dumpIndent fmt depth true ++ dumpFields fmt depth tl

end

/-- An element of the `events` GAsyncQueue: either a real (refcounted) event
or the singleton sentinel `&exit_event` (line 95), which the C code
distinguishes by pointer identity. -/
inductive Item where
  | ev (j : Json) : Item
  | exitEvent : Item

/-- The json_t payload of a queue item.  The sentinel `exit_event` is a
zero-initialised static `json_t` with no meaningful content; the
development proves it is never serialized, so the value returned for it
here is irrelevant. -/
def itemJson : Item → Json
  | .ev j => j
  | .exitEvent => Json.obj JObj.nil

/-- `janus_rabbitmqevh_event_free` (lines 96-100), the queue's
GDestroyNotify.  Returns whether `json_decref` is invoked: NULL and the
sentinel `&exit_event` are returned untouched, every real event is
dereferenced exactly once. -/
def janus_rabbitmqevh_event_free : Option Item → Bool
  | none => false
  | some Item.exitEvent => false
  | some (Item.ev _) => true

/-- Line 565: `int count = 0, max = group_events ? 100 : 1;` — the batch
cap, computed ONCE when the consumer thread starts, from the value the
`group_events` flag has at that moment. -/
def jns_rmqevh_max (group_events : Bool) : Nat :=
  if group_events then 100 else 1

/-- The `output` json_t built by one consumer iteration: either the bare
event itself (grouping disabled, line 585) or the `json_array` the events
were appended to (lines 590-591). -/
inductive Output where
  | single (it : Item) : Output
  | grouped (its : List Item) : Output

/-- Number of events in the batch. -/
def Output.size : Output → Nat
  | .single _ => 1
  | .grouped its => its.length

/-- The batch contains no occurrence of the shutdown sentinel. -/
def Output.sentinelFree : Output → Prop
  | .single it => it ≠ Item.exitEvent
  | .grouped its => Item.exitEvent ∉ its

/-- Serialization of the batch: `json_dumps(output, json_format)`
(line 603).  A single event dumps as that event's value; a grouped batch
dumps as a JSON array of the events in insertion order. -/
def dumpsOutput (fmt : JsonFmt) : Output → String
  | .single it => dumpJson fmt 0 (itemJson it)
  | .grouped its => dumpJson fmt 0 (Json.arr (JArr.ofList (its.map itemJson)))

/-- The grouping drain of `jns_rmqevh_hdlr` (lines 588-598), entered with
the current `event` in hand and `acc`/`count` the json_array contents and
counter so far.  Appends `event`, stops when `count` reaches `maxv`
(lines 593-594), otherwise `g_async_queue_try_pop`s (line 596): an empty
queue or the sentinel ends the batch (lines 597-598) — note the sentinel is
consumed by the try-pop and NOT appended and NOT put back.  Returns
(batch contents, remaining queue, whether the sentinel was consumed). -/
def collectGroup (maxv : Nat) (event : Item) (q : List Item) (acc : List Item) (count : Nat) :
    List Item × List Item × Bool :=
  if count + 1 = maxv then (acc ++ [event], q, false)
  else
    match q with
    | [] => (acc ++ [event], [], false)
    | Item.exitEvent :: rest => (acc ++ [event], rest, true)
    | Item.ev j :: rest => collectGroup maxv (Item.ev j) rest (acc ++ [event]) (count + 1)

/-- The whole inner `while(TRUE)` loop (lines 575-599) for one batch,
with the `group_events` flag held fixed across the drain (the C code
re-reads the global each inner iteration; all claims below concern a flag
stable within one batch).  The timestamp diagnostic (lines 576-581) only
logs and never affects batching, so it has no footprint here. -/
def collectBatch (group_events : Bool) (maxv : Nat) (event : Item) (q : List Item) :
    Output × List Item × Bool :=
  if ¬group_events then (Output.single event, q, false)
  else
    let r := collectGroup maxv event q [] 0
    (Output.grouped r.1, r.2.1, r.2.2)

/-- Warnings/errors the consumer iteration can log: the data-loss warning
when `json_dumps` returns NULL (line 605) and the publish-error log when
`amqp_basic_publish` fails (line 619). -/
inductive EvhLog where
  | stringifyFailed : EvhLog
  | publishError : EvhLog
deriving DecidableEq, Repr

/-- Oracle for the two fallible external calls of one consumer iteration:
whether `json_dumps` succeeds (line 603) and whether `amqp_basic_publish`
returns AMQP_STATUS_OK (line 617). -/
structure IterOracle where
  serializeOk : Bool
  publishOk : Bool
deriving DecidableEq, Repr

/-- Outcome of one pass through the consumer's outer `while` (lines 567-629):
`exitCond` — the while condition was false, the thread leaves the loop;
`blocked` — the blocking pop found the queue empty (the thread suspends);
`breakLoop` — the blocking pop returned the sentinel, `break` at line 571;
`continueLoop` — a batch was handled: `attempts` are the bodies handed to
`amqp_basic_publish` (at most one), `logs` the warnings raised, `q` the
remaining queue, `sawExit` whether the drain consumed the sentinel. -/
inductive IterResult where
  | exitCond : IterResult
  | blocked : IterResult
  | breakLoop (q : List Item) : IterResult
  | continueLoop (attempts : List String) (logs : List EvhLog) (q : List Item)
      (sawExit : Bool) : IterResult

def IterResult.attempts : IterResult → List String
  | .continueLoop a _ _ _ => a
  | _ => []

def IterResult.logs : IterResult → List EvhLog
  | .continueLoop _ l _ _ => l
  | _ => []

def IterResult.queueAfter : IterResult → Option (List Item)
  | .continueLoop _ _ q _ => some q
  | .breakLoop q => some q
  | _ => none

def IterResult.isContinue : IterResult → Bool
  | .continueLoop _ _ _ _ => true
  | _ => false

/-- One iteration of `jns_rmqevh_hdlr`'s outer loop (lines 567-629).
`initFlag`/`stopFlag` are the atomics read by the `while` condition at
line 567; `stopFlag2` is the separate read at line 601 (it may differ,
since `janus_rabbitmqevh_destroy` can set `stopping` concurrently).
The blocking `g_async_queue_pop` (line 569) is modelled on the queue as a
list; an empty queue means the pop blocks (`blocked`).  After the drain
the batch is serialized and published unless `stopping` is set; a NULL
from `json_dumps` logs a warning, drops the batch and `continue`s
(lines 604-610); a publish failure is only logged (lines 618-620); in both
cases the events' references are released (lines 607, 627) and the loop
continues with the queue as the drain left it. -/
def jns_rmqevh_hdlr_iter (fmt : JsonFmt) (group_events : Bool) (maxv : Nat)
    (initFlag stopFlag stopFlag2 : Bool) (orc : IterOracle) (q : List Item) : IterResult :=
  if ¬(initFlag ∧ ¬stopFlag) then IterResult.exitCond
  else
    match q with
    | [] => IterResult.blocked
    | Item.exitEvent :: rest => IterResult.breakLoop rest
    | Item.ev j :: rest =>
      let r := collectBatch group_events maxv (Item.ev j) rest
      if ¬stopFlag2 then
        if orc.serializeOk then
          let txt := dumpsOutput fmt r.1
          if orc.publishOk then IterResult.continueLoop [txt] [] r.2.1 r.2.2
          else IterResult.continueLoop [txt] [EvhLog.publishError] r.2.1 r.2.2
        else IterResult.continueLoop [] [EvhLog.stringifyFailed] r.2.1 r.2.2
      else IterResult.continueLoop [] [] r.2.1 r.2.2

/-- Several consecutive consumer iterations in steady state (initialized,
not stopping), one oracle per iteration; returns the concatenated list of
message bodies handed to `amqp_basic_publish`. -/
def jns_rmqevh_hdlr_run (fmt : JsonFmt) (group_events : Bool) (maxv : Nat)
    (orcs : List IterOracle) (q : List Item) : List String :=
  match orcs with
  | [] => []
  | orc :: more =>
    match jns_rmqevh_hdlr_iter fmt group_events maxv true false false orc q with
    | IterResult.continueLoop atts _ q2 _ => atts ++ jns_rmqevh_hdlr_run fmt group_events maxv more q2
    | _ => []

/-- `janus_rabbitmqevh_incoming_event` (lines 495-510) acting on the
plugin state: the event's reference count total and the queue.  When
stopping or not initialized it returns immediately (lines 496-499);
otherwise it does `json_incref(event); g_async_queue_push(events, event)`
(lines 508-509). -/
def janus_rabbitmqevh_incoming_event (stopFlag initFlag : Bool) (refcount : Nat)
    (q : List Item) (e : Json) : Nat × List Item :=
  if stopFlag || !initFlag then (refcount, q)
  else (refcount + 1, q ++ [Item.ev e])

/-- The `grouping` branch of the `tweak` request in
`janus_rabbitmqevh_handle_request` (lines 537-538): when the request
carries a `grouping` member, `group_events` is set to its truthiness,
otherwise the flag is left unchanged. -/
def janus_rabbitmqevh_handle_request_grouping (current : Bool) (grouping : Option Bool) : Bool :=
  match grouping with
  | none => current
  | some b => b

/-! ### Heartbeat thread -/

/-- Classification of `amqp_simple_wait_frame_noblock`'s result as the
heartbeat loop distinguishes it (lines 650-652): `ok` = AMQP_STATUS_OK,
`timeout` = AMQP_STATUS_TIMEOUT, `sslError` = AMQP_STATUS_SSL_ERROR,
`hardError` = any other non-OK status. -/
inductive PollRes where
  | ok : PollRes
  | timeout : PollRes
  | sslError : PollRes
  | hardError : PollRes
deriving DecidableEq, Repr

/-- Inputs of one heartbeat iteration: the poll outcome, the value of the
`stopping` atomic at the line-663 read, and whether the
`janus_rabbitmqevh_connect` retry (line 665) would succeed. -/
structure HbIn where
  poll : PollRes
  stopFlag2 : Bool
  connOk : Bool
deriving DecidableEq, Repr

/-- Observable actions of the heartbeat loop: a `g_usleep` whose argument
is the value of the `int` expression handed to it (the C converts it to
gulong at the call; recording the `int` value keeps the divergence
visible), the `amqp_destroy_connection` teardown, and a
`janus_rabbitmqevh_connect` attempt with its outcome. -/
inductive HbEvent where
  | sleepUsec (n : Int) : HbEvent
  | teardown : HbEvent
  | reconnect (ok : Bool) : HbEvent
deriving DecidableEq, Repr

/-- Two's-complement value a 32-bit C `int` holds after being assigned the
nonnegative product `n` (as on the plugin's target platforms, where the
overflowing multiplication wraps): `n` is reduced mod 2^32 and residues at
or above 2^31 represent negatives. -/
def toInt32 (n : Nat) : Int :=
  let r := n % 4294967296
  if r < 2147483648 then (r : Int) else (r : Int) - 4294967296

/-- Line 638: `int waiting_usec = (heartbeat/2) * 1000000;` — C integer
division of the configured heartbeat (seconds, a uint16_t, so up to
65535) by two, then a multiplication carried out in a 32-bit `int`: for
heartbeat ≥ 4296 the product exceeds INT_MAX and wraps. -/
def waitingUsec (heartbeat : Nat) : Int :=
  toInt32 ((heartbeat / 2) * 1000000)

/-- One iteration of `jns_rmqevh_hrtbt`'s loop (lines 644-676), as the
sequence of observable actions it performs.  OK, TIMEOUT and SSL_ERROR
all lead to `g_usleep(waiting_usec)` (lines 652-655, 672-675).  Any other
status tears the connection down (lines 660-662) and, unless stopping,
retries `janus_rabbitmqevh_connect`: failure sleeps the fixed 5000000 us
backoff, success sleeps `waiting_usec` (lines 663-671). -/
def jns_rmqevh_hrtbt_iter (heartbeat : Nat) (inp : HbIn) : List HbEvent :=
  match inp.poll with
  | PollRes.ok => [HbEvent.sleepUsec (waitingUsec heartbeat)]
  | PollRes.timeout => [HbEvent.sleepUsec (waitingUsec heartbeat)]
  | PollRes.sslError => [HbEvent.sleepUsec (waitingUsec heartbeat)]
  | PollRes.hardError =>
    HbEvent.teardown ::
      (if inp.stopFlag2 then []
       else [HbEvent.reconnect inp.connOk,
             HbEvent.sleepUsec (if inp.connOk then waitingUsec heartbeat else 5000000)])

/-- The heartbeat loop over a finite schedule of poll outcomes. -/
def jns_rmqevh_hrtbt_run (heartbeat : Nat) (inps : List HbIn) : List HbEvent :=
  (inps.map (jns_rmqevh_hrtbt_iter heartbeat)).flatten

/-- Number of reconnect attempts in a heartbeat trace. -/
def reconnectCount (tr : List HbEvent) : Nat :=
  (tr.filter (fun e => match e with | HbEvent.reconnect _ => true | _ => false)).length

/-! ### Connection manager -/

/-- The externally visible steps of `janus_rabbitmqevh_connect`
(lines 346-429), in the order the code performs them. -/
inductive ConnStep where
  | createSocket : ConnStep
  | setCacert : ConnStep
  | setKey : ConnStep
  | openSocket : ConnStep
  | login : ConnStep
  | openChannel : ConnStep
  | declareExchange : ConnStep
  | declareQueue : ConnStep
deriving DecidableEq, Repr

/-- The configuration fields `janus_rabbitmqevh_connect` consults, each
reduced to whether it is set (the string contents are irrelevant to the
control flow). -/
structure ConnectCfg where
  ssl_enable : Bool
  ssl_cacert_file : Bool
  ssl_cert_file : Bool
  ssl_key_file : Bool
  exchange : Bool
  declare_outgoing_queue : Bool
deriving DecidableEq, Repr

/-- Outcomes of the external AMQP calls, `true` meaning success
(AMQP_STATUS_OK / AMQP_RESPONSE_NORMAL).  `keyOk` is the value
`amqp_ssl_socket_set_key` RETURNS — the C code discards it (line 369). -/
structure ConnectEnv where
  socketOk : Bool
  cacertOk : Bool
  keyOk : Bool
  openOk : Bool
  loginOk : Bool
  channelOk : Bool
  exchangeOk : Bool
  queueOk : Bool
deriving DecidableEq, Repr

/-- The tail of the connect sequence from `amqp_socket_open` (line 384)
onwards: open socket, login (line 390), open channel (line 398), declare
the exchange when one is configured (lines 405-414), declare the outgoing
queue when enabled (lines 416-424).  Each failure returns -1 at once. -/
def connectTail (cfg : ConnectCfg) (env : ConnectEnv) (steps : List ConnStep) :
    Int × List ConnStep :=
  let s1 := steps ++ [ConnStep.openSocket]
  if ¬env.openOk then (-1, s1)
  else
    let s2 := s1 ++ [ConnStep.login]
    if ¬env.loginOk then (-1, s2)
    else
      let s3 := s2 ++ [ConnStep.openChannel]
      if ¬env.channelOk then (-1, s3)
      else
        let s4 := if cfg.exchange then s3 ++ [ConnStep.declareExchange] else s3
        if cfg.exchange ∧ ¬env.exchangeOk then (-1, s4)
        else
          let s5 := if cfg.declare_outgoing_queue then s4 ++ [ConnStep.declareQueue] else s4
          if cfg.declare_outgoing_queue ∧ ¬env.queueOk then (-1, s5)
          else (0, s5)

/-- `janus_rabbitmqevh_connect` (lines 346-429).  Returns the C return
value and the list of steps actually attempted.  The local `status`
variable is threaded exactly as in the source: it is initialised to
AMQP_STATUS_OK (line 349), assigned by `amqp_ssl_socket_set_cacert`
(line 362), and — the decisive detail — NOT assigned by
`amqp_ssl_socket_set_key` (line 369), whose guard at line 370 therefore
tests the stale value. -/
def janus_rabbitmqevh_connect (cfg : ConnectCfg) (env : ConnectEnv) : Int × List ConnStep :=
  if cfg.ssl_enable then
    if ¬env.socketOk then (-1, [ConnStep.createSocket])
    else
      -- amqp_ssl_socket_set_verify_peer / set_verify_hostname: void, no failure path
      let cacertSteps := if cfg.ssl_cacert_file then [ConnStep.setCacert] else []
      let status := if cfg.ssl_cacert_file then env.cacertOk else true
      if cfg.ssl_cacert_file ∧ ¬env.cacertOk then (-1, ConnStep.createSocket :: cacertSteps)
      else
        let keySteps := if cfg.ssl_cert_file ∧ cfg.ssl_key_file then [ConnStep.setKey] else []
        if (cfg.ssl_cert_file ∧ cfg.ssl_key_file) ∧ ¬status then
          (-1, ConnStep.createSocket :: (cacertSteps ++ keySteps))
        else
          connectTail cfg env (ConnStep.createSocket :: (cacertSteps ++ keySteps))
  else
    if ¬env.socketOk then (-1, [ConnStep.createSocket])
    else connectTail cfg env [ConnStep.createSocket]

/-! ### Helper lemmas about the grouping drain -/

/-- The drain never puts the sentinel into the batch: the current event is
only ever appended after having been checked against `&exit_event`
(line 570 for the blocking pop, line 597 for the try-pops). -/
theorem collectGroup_not_mem_exit (maxv : Nat) :
    ∀ (q : List Item) (event : Item) (acc : List Item) (count : Nat),
      event ≠ Item.exitEvent → Item.exitEvent ∉ acc →
      Item.exitEvent ∉ (collectGroup maxv event q acc count).1 := by
  intro q
  induction q with
  | nil =>
    intro event acc count hev hacc
    rw [collectGroup.eq_def]
    split <;> simp_all [List.mem_append, Ne.symm hev]
  | cons hd tl ih =>
    intro event acc count hev hacc
    rw [collectGroup.eq_def]
    split
    · simp_all [List.mem_append, Ne.symm hev]
    · cases hd with
      | exitEvent => simp_all [List.mem_append, Ne.symm hev]
      | ev j =>
        exact ih (Item.ev j) (acc ++ [event]) (count + 1) (by simp)
          (by simp_all [List.mem_append, Ne.symm hev])

/-- The batch never exceeds the cap: starting below `maxv`, the drain adds
at most `maxv - count` further events. -/
theorem collectGroup_length_le (maxv : Nat) :
    ∀ (q : List Item) (event : Item) (acc : List Item) (count : Nat),
      count < maxv →
      (collectGroup maxv event q acc count).1.length ≤ acc.length + (maxv - count) := by
  intro q
  induction q with
  | nil =>
    intro event acc count hc
    rw [collectGroup.eq_def]
    split <;> simp <;> omega
  | cons hd tl ih =>
    intro event acc count hc
    rw [collectGroup.eq_def]
    split
    · simp; omega
    · cases hd with
      | exitEvent => simp; omega
      | ev j =>
        have h2 : count + 1 < maxv := by rename_i hne; omega
        have := ih (Item.ev j) (acc ++ [event]) (count + 1) h2
        simp only [List.length_append, List.length_singleton] at this ⊢
        omega

/-- When exactly `maxv - count - 1` real events sit in front of the queue,
the drain takes precisely these and leaves the remainder untouched. -/
theorem collectGroup_exact (maxv : Nat) :
    ∀ (es : List Json) (event : Item) (acc : List Item) (count : Nat) (rest : List Item),
      count + 1 + es.length = maxv →
      collectGroup maxv event (es.map Item.ev ++ rest) acc count =
        (acc ++ event :: es.map Item.ev, rest, false) := by
  intro es
  induction es with
  | nil =>
    intro event acc count rest h
    rw [collectGroup.eq_def]
    simp at h
    simp [h]
  | cons e es2 ih =>
    intro event acc count rest h
    rw [collectGroup.eq_def]
    have hne : ¬(count + 1 = maxv) := by simp at h; omega
    simp only [hne, if_false, List.map_cons, List.cons_append]
    have := ih (Item.ev e) (acc ++ [event]) (count + 1) rest (by simp at h ⊢; omega)
    rw [this]
    simp

/-- Over a queue of real events, the batch is the current event followed by
the queue's first `maxv - count - 1` events, in queue (push) order. -/
theorem collectGroup_take (maxv : Nat) :
    ∀ (es : List Json) (event : Item) (acc : List Item) (count : Nat),
      count < maxv →
      (collectGroup maxv event (es.map Item.ev) acc count).1 =
        acc ++ event :: (es.take (maxv - count - 1)).map Item.ev := by
  intro es
  induction es with
  | nil =>
    intro event acc count h
    rw [collectGroup.eq_def]
    split <;> simp
  | cons e es2 ih =>
    intro event acc count h
    rw [collectGroup.eq_def]
    by_cases hc : count + 1 = maxv
    · simp [hc]
      have : maxv - count - 1 = 0 := by omega
      simp [this]
    · simp only [hc, if_false, List.map_cons]
      have := ih (Item.ev e) (acc ++ [event]) (count + 1) (by omega)
      rw [this]
      have : maxv - count - 1 = (maxv - (count + 1) - 1) + 1 := by omega
      rw [this]
      simp [List.take_succ_cons]

/-- When the sentinel is reached before the cap, the drain ends the batch
without appending it, consumes it, and leaves exactly the items behind it
in the queue. -/
theorem collectGroup_exit (maxv : Nat) :
    ∀ (es : List Json) (event : Item) (acc : List Item) (count : Nat) (rest : List Item),
      count + 1 + es.length < maxv →
      collectGroup maxv event (es.map Item.ev ++ (Item.exitEvent :: rest)) acc count =
        (acc ++ event :: es.map Item.ev, rest, true) := by
  intro es
  induction es with
  | nil =>
    intro event acc count rest h
    rw [collectGroup.eq_def]
    have hne : ¬(count + 1 = maxv) := by simp at h; omega
    simp [hne]
  | cons e es2 ih =>
    intro event acc count rest h
    rw [collectGroup.eq_def]
    have hne : ¬(count + 1 = maxv) := by simp at h; omega
    simp only [hne, if_false, List.map_cons, List.cons_append]
    have := ih (Item.ev e) (acc ++ [event]) (count + 1) rest (by simp at h ⊢; omega)
    rw [this]
    simp

/-- Mapping a batch of real events back to their payloads is the identity. -/
theorem itemJson_comp_ev : itemJson ∘ Item.ev = id :=
  funext fun _ => rfl

/-- Below the overflow threshold (heartbeat < 4296, hence a product of at
most 2147 * 1000000 < 2^31) the line-638 `int` holds the exact value
`(heartbeat/2) * 1000000`. -/
theorem waitingUsec_eq_of_lt (hb : Nat) (h : hb < 4296) :
    waitingUsec hb = ((hb / 2 * 1000000 : Nat) : Int) := by
  have h0 : hb / 2 ≤ 2147 := by omega
  have h1 : hb / 2 * 1000000 ≤ 2147 * 1000000 := Nat.mul_le_mul_right _ h0
  unfold waitingUsec toInt32
  have h2 : hb / 2 * 1000000 % 4294967296 = hb / 2 * 1000000 :=
    Nat.mod_eq_of_lt (by omega)
  simp only [h2]
  rw [if_pos (by omega)]

/-! ### Claims -/

/-- C1: for every batch, if serialization fails or the transport publish
fails, the batch is dropped (logged, never re-sent), the consumer loop
continues, and the next popped event is processed normally; neither
failure terminates the consumer thread.  First conjunct: a publish
failure leaves the iteration a `continueLoop` with the same single send
attempt and the same remaining queue as a successful publish — the batch
is handed to the transport exactly once and never re-queued.  Second
conjunct: a serialization failure publishes nothing, logs the data-loss
warning, and continues with the same queue progress.  Third conjunct: in
a run whose first publish fails, the first batch is attempted exactly
once and the next event is then processed normally. -/
theorem claim_C1_failure_drops_batch :
    (∀ (fmt : JsonFmt) (g : Bool) (maxv : Nat) (sOk : Bool) (j : Json) (rest : List Item),
       (jns_rmqevh_hdlr_iter fmt g maxv true false false ⟨sOk, false⟩
          (Item.ev j :: rest)).isContinue = true ∧
       (jns_rmqevh_hdlr_iter fmt g maxv true false false ⟨sOk, false⟩
          (Item.ev j :: rest)).queueAfter =
         (jns_rmqevh_hdlr_iter fmt g maxv true false false ⟨sOk, true⟩
            (Item.ev j :: rest)).queueAfter ∧
       (jns_rmqevh_hdlr_iter fmt g maxv true false false ⟨sOk, false⟩
          (Item.ev j :: rest)).attempts =
         (jns_rmqevh_hdlr_iter fmt g maxv true false false ⟨sOk, true⟩
            (Item.ev j :: rest)).attempts) ∧
    (∀ (fmt : JsonFmt) (g : Bool) (maxv : Nat) (pOk : Bool) (j : Json) (rest : List Item),
       jns_rmqevh_hdlr_iter fmt g maxv true false false ⟨false, pOk⟩ (Item.ev j :: rest) =
         IterResult.continueLoop [] [EvhLog.stringifyFailed]
           (collectBatch g maxv (Item.ev j) rest).2.1
           (collectBatch g maxv (Item.ev j) rest).2.2) ∧
    (∀ (fmt : JsonFmt) (j j2 : Json),
       jns_rmqevh_hdlr_run fmt false 1 [⟨true, false⟩, ⟨true, true⟩]
           [Item.ev j, Item.ev j2] =
         [dumpJson fmt 0 j, dumpJson fmt 0 j2]) := by
  refine ⟨?_, ?_, ?_⟩
  · intro fmt g maxv sOk j rest
    cases sOk <;>
      simp [jns_rmqevh_hdlr_iter, IterResult.isContinue, IterResult.queueAfter,
        IterResult.attempts]
  · intro fmt g maxv pOk j rest
    simp [jns_rmqevh_hdlr_iter]
  · intro fmt j j2
    simp [jns_rmqevh_hdlr_run, jns_rmqevh_hdlr_iter, collectBatch, dumpsOutput, itemJson]

/-- C2: the batch size is bounded — with grouping disabled every batch
holds exactly one event; with grouping enabled (the line-565 cap being
100) every batch holds at most 100 events, and when at least 100 events
are queued the batch holds exactly the first 100 with the remainder left
on the queue to begin a new batch. -/
theorem claim_C2_batch_size_bounds :
    (∀ (it : Item) (q : List Item),
       (collectBatch false (jns_rmqevh_max false) it q).1.size = 1) ∧
    (∀ (it : Item) (q : List Item),
       (collectBatch true (jns_rmqevh_max true) it q).1.size ≤ 100) ∧
    (∀ (e : Json) (es : List Json) (rest : List Item),
       es.length = 99 →
       collectBatch true (jns_rmqevh_max true) (Item.ev e) (es.map Item.ev ++ rest) =
         (Output.grouped (Item.ev e :: es.map Item.ev), rest, false)) := by
  refine ⟨?_, ?_, ?_⟩
  · intro it q
    simp [collectBatch, jns_rmqevh_max, Output.size]
  · intro it q
    simp only [collectBatch, jns_rmqevh_max, if_true, not_true, if_false, Output.size]
    have := collectGroup_length_le 100 q it [] 0 (by omega)
    simpa [Output.size] using this
  · intro e es rest h
    have hx := collectGroup_exact 100 es (Item.ev e) [] 0 rest (by omega)
    simp [collectBatch, jns_rmqevh_max, hx]

/-- Witness for C2 at a concrete queue of 100 events plus one more. -/
theorem claim_C2_witness :
    collectBatch true (jns_rmqevh_max true) (Item.ev (Json.obj JObj.nil))
        ((List.replicate 99 Json.null).map Item.ev ++ [Item.ev (Json.bool true)]) =
      (Output.grouped (Item.ev (Json.obj JObj.nil) :: (List.replicate 99 Json.null).map Item.ev),
       [Item.ev (Json.bool true)], false) :=
  claim_C2_batch_size_bounds.2.2 (Json.obj JObj.nil) (List.replicate 99 Json.null)
    [Item.ev (Json.bool true)] (by simp)

/-- Counterexample to C3 as stated: with grouping enabled and exactly one
event in the batch, the published body is the one-element JSON array
text, not the single JSON object text the claim requires for every batch
of exactly one event. -/
theorem claim_C3_counterexample :
    (jns_rmqevh_hdlr_iter JsonFmt.compact true 100 true false false ⟨true, true⟩
        [Item.ev (Json.obj JObj.nil)]).attempts = ["[\x7b\x7d]"] ∧
    dumpsOutput JsonFmt.compact (Output.single (Item.ev (Json.obj JObj.nil))) = "\x7b\x7d" ∧
    ("[\x7b\x7d]" : String) ≠ "\x7b\x7d" := by
  refine ⟨rfl, rfl, by decide⟩

/-- C3 (amended): a batch collected with grouping DISABLED (always exactly
one event) serializes as the bare event — an object rendering opening
with the object bracket — while a batch collected with grouping ENABLED
serializes as a JSON array of its events in insertion (queue) order,
even when it contains exactly one event, under every configured
formatting mode. -/
theorem claim_C3_object_vs_array_amended :
    (∀ (fmt : JsonFmt) (pOk : Bool) (j : Json) (rest : List Item),
       (jns_rmqevh_hdlr_iter fmt false 1 true false false ⟨true, pOk⟩
          (Item.ev j :: rest)).attempts = [dumpJson fmt 0 j]) ∧
    (∀ (fmt : JsonFmt) (fields : JObj), ∃ s : String,
       dumpJson fmt 0 (Json.obj fields) = "\x7b" ++ s) ∧
    (∀ (fmt : JsonFmt) (j : Json) (es : List Json),
       (collectBatch true 100 (Item.ev j) (es.map Item.ev)).1 =
         Output.grouped (Item.ev j :: (es.take 99).map Item.ev) ∧
       dumpsOutput fmt (Output.grouped (Item.ev j :: (es.take 99).map Item.ev)) =
         dumpJson fmt 0 (Json.arr (JArr.ofList (j :: es.take 99)))) ∧
    (∀ (fmt : JsonFmt) (l : JArr), ∃ s : String,
       dumpJson fmt 0 (Json.arr l) = "[" ++ s) := by
  refine ⟨?_, ?_, ?_, ?_⟩
  · intro fmt pOk j rest
    cases pOk <;>
      simp [jns_rmqevh_hdlr_iter, collectBatch, dumpsOutput, itemJson, IterResult.attempts]
  · intro fmt fields
    cases fields <;> exact ⟨_, rfl⟩
  · intro fmt j es
    constructor
    · simp only [collectBatch, not_true, if_false]
      rw [collectGroup_take 100 es (Item.ev j) [] 0 (by omega)]
      simp
    · simp [dumpsOutput, itemJson, itemJson_comp_ev]
  · intro fmt l
    cases l <;> exact ⟨_, rfl⟩

/-- C4: the Shutdown Token is never part of a batch, never serialized and
never published: every batch starting from a real blocking-popped event
is sentinel-free; a sentinel returned by the blocking pop breaks the loop
at once without publishing; every published body is the serialization of
a sentinel-free batch; and the queue destructor releases no reference
when handed the sentinel (or NULL). -/
theorem claim_C4_sentinel_exclusivity :
    (∀ (g : Bool) (maxv : Nat) (j : Json) (q : List Item),
       Output.sentinelFree (collectBatch g maxv (Item.ev j) q).1) ∧
    (∀ (fmt : JsonFmt) (g : Bool) (maxv : Nat) (s2 : Bool) (orc : IterOracle) (rest : List Item),
       jns_rmqevh_hdlr_iter fmt g maxv true false s2 orc (Item.exitEvent :: rest) =
         IterResult.breakLoop rest) ∧
    (∀ (fmt : JsonFmt) (g : Bool) (maxv : Nat) (i s1 s2 : Bool) (orc : IterOracle) (q : List Item),
       (jns_rmqevh_hdlr_iter fmt g maxv i s1 s2 orc q).attempts = [] ∨
       ∃ out : Output, Output.sentinelFree out ∧
         (jns_rmqevh_hdlr_iter fmt g maxv i s1 s2 orc q).attempts = [dumpsOutput fmt out]) ∧
    (janus_rabbitmqevh_event_free (some Item.exitEvent) = false ∧
     janus_rabbitmqevh_event_free none = false) := by
  have hfree : ∀ (g : Bool) (maxv : Nat) (j : Json) (q : List Item),
      Output.sentinelFree (collectBatch g maxv (Item.ev j) q).1 := by
    intro g maxv j q
    cases g with
    | false => simp [collectBatch, Output.sentinelFree]
    | true =>
      simp only [collectBatch, not_true, if_false, Output.sentinelFree]
      exact collectGroup_not_mem_exit maxv q (Item.ev j) [] 0 (by simp) (by simp)
  refine ⟨hfree, ?_, ?_, rfl, rfl⟩
  · intro fmt g maxv s2 orc rest
    simp [jns_rmqevh_hdlr_iter]
  · intro fmt g maxv i s1 s2 orc q
    cases i with
    | false => left; simp [jns_rmqevh_hdlr_iter, IterResult.attempts]
    | true =>
      cases s1 with
      | true => left; simp [jns_rmqevh_hdlr_iter, IterResult.attempts]
      | false =>
        cases q with
        | nil => left; simp [jns_rmqevh_hdlr_iter, IterResult.attempts]
        | cons hd tl =>
          cases hd with
          | exitEvent => left; simp [jns_rmqevh_hdlr_iter, IterResult.attempts]
          | ev j =>
            cases s2 with
            | true => left; simp [jns_rmqevh_hdlr_iter, IterResult.attempts]
            | false =>
              cases horc : orc.serializeOk with
              | false => left; simp [jns_rmqevh_hdlr_iter, IterResult.attempts, horc]
              | true =>
                right
                refine ⟨(collectBatch g maxv (Item.ev j) tl).1, hfree g maxv j tl, ?_⟩
                cases hp : orc.publishOk <;>
                  simp [jns_rmqevh_hdlr_iter, IterResult.attempts, horc, hp]

/-- Counterexample to C5 as stated: when the drain observes the sentinel,
the sentinel is consumed — the remaining queue is empty, so no later
blocking pop can return it; on the next iteration the thread terminates
through the stop-flag check of the while condition (`exitCond`), and
without the stop flag the blocking pop would simply block. -/
theorem claim_C5_counterexample :
    jns_rmqevh_hdlr_iter JsonFmt.compact true 100 true false false ⟨true, true⟩
        [Item.ev (Json.obj JObj.nil), Item.exitEvent] =
      IterResult.continueLoop ["[\x7b\x7d]"] [] [] true ∧
    jns_rmqevh_hdlr_iter JsonFmt.compact true 100 true true false ⟨true, true⟩ [] =
      IterResult.exitCond ∧
    jns_rmqevh_hdlr_iter JsonFmt.compact true 100 true false false ⟨true, true⟩ [] =
      IterResult.blocked :=
  ⟨rfl, rfl, rfl⟩

/-- C5 (amended): when the Shutdown Token is observed by the non-blocking
drain, the batch is ended without appending the token and the token is
consumed from the queue (not re-queued), so it is never popped again; the
consumer's termination happens on the next outer iteration via the
while-condition's stop-flag check (the destroy sequence sets `stopping`
before pushing the token), not by a dedicated blocking pop of the
sentinel. -/
theorem claim_C5_midbatch_sentinel_amended :
    ∀ (fmt : JsonFmt) (orc : IterOracle) (e : Json) (es : List Json) (rest : List Item),
      es.length + 2 ≤ 100 →
      (collectBatch true 100 (Item.ev e) (es.map Item.ev ++ (Item.exitEvent :: rest)) =
         (Output.grouped (Item.ev e :: es.map Item.ev), rest, true)) ∧
      (∃ atts logs,
         jns_rmqevh_hdlr_iter fmt true 100 true false false orc
             (Item.ev e :: (es.map Item.ev ++ (Item.exitEvent :: rest))) =
           IterResult.continueLoop atts logs rest true) ∧
      (∀ (s2 : Bool) (orc2 : IterOracle),
         jns_rmqevh_hdlr_iter fmt true 100 true true s2 orc2 rest = IterResult.exitCond) := by
  intro fmt orc e es rest h
  have hcb : collectBatch true 100 (Item.ev e) (es.map Item.ev ++ (Item.exitEvent :: rest)) =
      (Output.grouped (Item.ev e :: es.map Item.ev), rest, true) := by
    simp only [collectBatch, not_true, if_false]
    rw [collectGroup_exit 100 es (Item.ev e) [] 0 rest (by omega)]
    simp
  refine ⟨hcb, ?_, ?_⟩
  · rcases orc with ⟨sOk, pOk⟩
    cases sOk with
    | false =>
      exact ⟨[], [EvhLog.stringifyFailed], by simp [jns_rmqevh_hdlr_iter, hcb]⟩
    | true =>
      cases pOk with
      | false =>
        exact ⟨[dumpsOutput fmt (Output.grouped (Item.ev e :: es.map Item.ev))],
          [EvhLog.publishError], by simp [jns_rmqevh_hdlr_iter, hcb]⟩
      | true =>
        exact ⟨[dumpsOutput fmt (Output.grouped (Item.ev e :: es.map Item.ev))],
          [], by simp [jns_rmqevh_hdlr_iter, hcb]⟩
  · intro s2 orc2
    simp [jns_rmqevh_hdlr_iter]

/-- Witness for the amended C5 at the smallest mid-drain sentinel queue. -/
theorem claim_C5_witness :
    (collectBatch true 100 (Item.ev Json.null) (([] : List Json).map Item.ev ++
        (Item.exitEvent :: ([] : List Item))) =
       (Output.grouped (Item.ev Json.null :: ([] : List Json).map Item.ev), [], true)) ∧
    (∃ atts logs,
       jns_rmqevh_hdlr_iter JsonFmt.plain true 100 true false false ⟨true, true⟩
           (Item.ev Json.null :: (([] : List Json).map Item.ev ++ (Item.exitEvent :: []))) =
         IterResult.continueLoop atts logs [] true) ∧
    (∀ (s2 : Bool) (orc2 : IterOracle),
       jns_rmqevh_hdlr_iter JsonFmt.plain true 100 true true s2 orc2 [] =
         IterResult.exitCond) :=
  claim_C5_midbatch_sentinel_amended JsonFmt.plain ⟨true, true⟩ Json.null [] [] (by decide)

/-- C6: the claim (every connect step fail-fast, in particular a failure
loading the client cert/key aborting the connect) is violated by the
code: `amqp_ssl_socket_set_key`'s return value is dropped at line 369,
so its guard tests the stale `status` and can never fire.  First
conjunct evaluates the connect at the failing input — SSL enabled, no CA
file, cert and key files supplied, `set_key` failing, everything else
succeeding: the connect still performs every later step and returns 0.
Second conjunct: the `set_key` outcome cannot influence the result at
all. -/
theorem claim_C6_setkey_failure_ignored :
    janus_rabbitmqevh_connect
        ⟨true, false, true, true, true, true⟩
        ⟨true, true, false, true, true, true, true, true⟩ =
      (0, [ConnStep.createSocket, ConnStep.setKey, ConnStep.openSocket, ConnStep.login,
           ConnStep.openChannel, ConnStep.declareExchange, ConnStep.declareQueue]) ∧
    (∀ (cfg : ConnectCfg) (env : ConnectEnv) (b1 b2 : Bool),
       janus_rabbitmqevh_connect cfg { env with keyOk := b1 } =
         janus_rabbitmqevh_connect cfg { env with keyOk := b2 }) := by
  refine ⟨rfl, ?_⟩
  intro cfg env b1 b2
  rfl

/-- C7: a hard poll error (while not stopping) tears the connection down
and makes exactly one reconnect attempt, sleeping the fixed 5-second
backoff on failure and half the heartbeat interval on success; over any
schedule the number of reconnect attempts equals the number of
non-stopping hard errors (unbounded retry); and the Scenario-D schedule
(hard error twice, then success) yields exactly two reconnect attempts
with the backoff between them, then resumed steady-state polling.  The
post-success sleep is the line-638 `waiting_usec` value, which equals the
exact `(heartbeat/2) * 1000000` microseconds below the 32-bit overflow
threshold. -/
theorem claim_C7_reconnect_loop :
    (∀ (hb : Nat) (c : Bool),
       jns_rmqevh_hrtbt_iter hb ⟨PollRes.hardError, false, c⟩ =
         [HbEvent.teardown, HbEvent.reconnect c,
          HbEvent.sleepUsec (if c then waitingUsec hb else 5000000)]) ∧
    (∀ hb : Nat, hb < 4296 → waitingUsec hb = ((hb / 2 * 1000000 : Nat) : Int)) ∧
    (∀ (hb : Nat) (inps : List HbIn),
       reconnectCount (jns_rmqevh_hrtbt_run hb inps) =
         (inps.filter (fun i => (i.poll == PollRes.hardError) && !i.stopFlag2)).length) ∧
    (∀ (hb : Nat) (c : Bool),
       jns_rmqevh_hrtbt_run hb
           [⟨PollRes.hardError, false, false⟩, ⟨PollRes.hardError, false, true⟩,
            ⟨PollRes.ok, false, c⟩] =
         [HbEvent.teardown, HbEvent.reconnect false, HbEvent.sleepUsec 5000000,
          HbEvent.teardown, HbEvent.reconnect true, HbEvent.sleepUsec (waitingUsec hb),
          HbEvent.sleepUsec (waitingUsec hb)] ∧
       reconnectCount (jns_rmqevh_hrtbt_run hb
           [⟨PollRes.hardError, false, false⟩, ⟨PollRes.hardError, false, true⟩,
            ⟨PollRes.ok, false, c⟩]) = 2) := by
  refine ⟨?_, ?_, ?_, ?_⟩
  · intro hb c
    simp [jns_rmqevh_hrtbt_iter]
  · intro hb h
    exact waitingUsec_eq_of_lt hb h
  · intro hb inps
    induction inps with
    | nil => rfl
    | cons i tl ih =>
      rcases i with ⟨p, s2, c⟩
      cases p <;> cases s2 <;>
        simp [jns_rmqevh_hrtbt_run, jns_rmqevh_hrtbt_iter, reconnectCount,
          List.filter_append, List.filter] at ih ⊢ <;>
        simpa [jns_rmqevh_hrtbt_run, reconnectCount] using ih
  · intro hb c
    constructor
    · simp [jns_rmqevh_hrtbt_run, jns_rmqevh_hrtbt_iter]
    · simp [jns_rmqevh_hrtbt_run, jns_rmqevh_hrtbt_iter, reconnectCount, List.filter]

/-- Witness for C7's below-threshold half-interval conjunct at the even
interval 4. -/
theorem claim_C7_witness :
    waitingUsec 4 = ((4 / 2 * 1000000 : Nat) : Int) :=
  claim_C7_reconnect_loop.2.1 4 (by decide)

/-- Counterexample to C8 as stated: with heartbeat interval 1 (legal,
greater than zero) and a steady-state poll outcome, the monitor sleeps
`(1/2) * 1000000 = 0` microseconds, not the exact half interval
500000 microseconds. -/
theorem claim_C8_counterexample :
    jns_rmqevh_hrtbt_iter 1 ⟨PollRes.timeout, false, false⟩ = [HbEvent.sleepUsec 0] ∧
    (0 : Int) ≠ 1 * 500000 :=
  ⟨by decide, by decide⟩

/-- C8 (amended): on every steady-state outcome (success, timeout, or the
recoverable TLS condition) the monitor sleeps the line-638 `waiting_usec`
value; below the 32-bit overflow threshold (heartbeat < 4296) that is
`(heartbeat/2)` seconds — C integer division, exactly half the interval
precisely when the interval is even — while at heartbeat 4296 and beyond
the `int` product wraps and the stored value diverges from the exact
half-interval. -/
theorem claim_C8_half_interval_amended :
    ∀ (hb : Nat) (inp : HbIn), 0 < hb → inp.poll ≠ PollRes.hardError →
      jns_rmqevh_hrtbt_iter hb inp = [HbEvent.sleepUsec (waitingUsec hb)] ∧
      (hb < 4296 → waitingUsec hb = ((hb / 2 * 1000000 : Nat) : Int)) ∧
      (hb % 2 = 0 → hb < 4296 → waitingUsec hb = ((hb * 500000 : Nat) : Int)) ∧
      waitingUsec 4296 ≠ ((4296 / 2 * 1000000 : Nat) : Int) := by
  intro hb inp hpos hnp
  have heven : hb % 2 = 0 → hb < 4296 → waitingUsec hb = ((hb * 500000 : Nat) : Int) := by
    intro he hlt
    rw [waitingUsec_eq_of_lt hb hlt]
    have hx : hb / 2 * 1000000 = hb * 500000 := by omega
    rw [hx]
  rcases inp with ⟨p, s2, c⟩
  cases p with
  | hardError => exact absurd rfl hnp
  | ok => exact ⟨rfl, waitingUsec_eq_of_lt hb, heven, by decide⟩
  | timeout => exact ⟨rfl, waitingUsec_eq_of_lt hb, heven, by decide⟩
  | sslError => exact ⟨rfl, waitingUsec_eq_of_lt hb, heven, by decide⟩

/-- Witness for the amended C8 at the even interval 2. -/
theorem claim_C8_witness :
    jns_rmqevh_hrtbt_iter 2 ⟨PollRes.timeout, false, false⟩ =
        [HbEvent.sleepUsec (waitingUsec 2)] ∧
      (2 < 4296 → waitingUsec 2 = ((2 / 2 * 1000000 : Nat) : Int)) ∧
      (2 % 2 = 0 → 2 < 4296 → waitingUsec 2 = ((2 * 500000 : Nat) : Int)) ∧
      waitingUsec 4296 ≠ ((4296 / 2 * 1000000 : Nat) : Int) :=
  claim_C8_half_interval_amended 2 ⟨PollRes.timeout, false, false⟩ (by decide) (by decide)

/-- Counterexample to C9 as stated: on a consumer thread started with
grouping disabled, the line-565 cap is frozen at 1; after a tweak enables
grouping, a batch drawn from a queue of three events still holds exactly
one event — it can never "group up to the configured maximum of 100",
while a thread started with grouping enabled takes all three. -/
theorem claim_C9_counterexample :
    (collectBatch (janus_rabbitmqevh_handle_request_grouping false (some true))
        (jns_rmqevh_max false) (Item.ev (Json.obj JObj.nil))
        [Item.ev Json.null, Item.ev (Json.bool true)]).1.size = 1 ∧
    (1 : Nat) ≠ 3 ∧
    (collectBatch true (jns_rmqevh_max true) (Item.ev (Json.obj JObj.nil))
        [Item.ev Json.null, Item.ev (Json.bool true)]).1.size = 3 := by
  refine ⟨rfl, by decide, rfl⟩

/-- C9 (amended): a tweak of the grouping flag takes effect for
subsequently formed batches, but the batch cap is computed once at
consumer-thread start: disabling grouping at runtime yields single-event
batches whatever the startup cap; enabling grouping at runtime on a
thread started with grouping disabled still yields one-event batches
(cap 1); batches of up to 100 events require grouping enabled at
startup. -/
theorem claim_C9_grouping_tweak_amended :
    (∀ (g0 : Bool) (maxv : Nat) (it : Item) (q : List Item),
       (collectBatch (janus_rabbitmqevh_handle_request_grouping g0 (some false)) maxv it q).1.size
         = 1) ∧
    (∀ (g0 : Bool) (it : Item) (q : List Item),
       (collectBatch (janus_rabbitmqevh_handle_request_grouping g0 (some true))
          (jns_rmqevh_max false) it q).1.size = 1) ∧
    (∀ (it : Item) (q : List Item),
       (collectBatch (janus_rabbitmqevh_handle_request_grouping true (some true))
          (jns_rmqevh_max true) it q).1.size ≤ 100) := by
  refine ⟨?_, ?_, ?_⟩
  · intro g0 maxv it q
    simp [janus_rabbitmqevh_handle_request_grouping, collectBatch, Output.size]
  · intro g0 it q
    rw [janus_rabbitmqevh_handle_request_grouping]
    simp only [collectBatch, jns_rmqevh_max, not_true, if_false, Output.size]
    rw [collectGroup.eq_def]
    simp
  · intro it q
    rw [janus_rabbitmqevh_handle_request_grouping]
    simp only [collectBatch, jns_rmqevh_max, not_true, if_false, Output.size]
    have := collectGroup_length_le 100 q it [] 0 (by omega)
    simpa using this

/-- C10: the public incoming-event entry point returns with the reference
count and queue unchanged whenever the stop flag is set or the handler is
not marked initialized, and otherwise increments the event's reference
count exactly once and appends exactly the event to the queue. -/
theorem claim_C10_incoming_event_gate :
    ∀ (s i : Bool) (rc : Nat) (q : List Item) (e : Json),
      ((s || !i) = true → janus_rabbitmqevh_incoming_event s i rc q e = (rc, q)) ∧
      (s = false → i = true →
        janus_rabbitmqevh_incoming_event s i rc q e = (rc + 1, q ++ [Item.ev e]) ∧
        (janus_rabbitmqevh_incoming_event s i rc q e).2.length = q.length + 1 ∧
        (janus_rabbitmqevh_incoming_event s i rc q e).1 = rc + 1) := by
  intro s i rc q e
  constructor
  · intro h
    simp [janus_rabbitmqevh_incoming_event, h]
  · intro hs hi
    subst hs; subst hi
    refine ⟨rfl, ?_, rfl⟩
    simp [janus_rabbitmqevh_incoming_event]

/-- Witness for C10 covering both the rejecting and the enqueueing case. -/
theorem claim_C10_witness :
    (janus_rabbitmqevh_incoming_event true true 0 [] Json.null = (0, []) ∧
     janus_rabbitmqevh_incoming_event false false 0 [] Json.null = (0, [])) ∧
    (janus_rabbitmqevh_incoming_event false true 0 [] Json.null =
        (1, [Item.ev Json.null]) ∧
      (janus_rabbitmqevh_incoming_event false true 0 [] Json.null).2.length = 0 + 1 ∧
      (janus_rabbitmqevh_incoming_event false true 0 [] Json.null).1 = 0 + 1) :=
  ⟨⟨(claim_C10_incoming_event_gate true true 0 [] Json.null).1 rfl,
    (claim_C10_incoming_event_gate false false 0 [] Json.null).1 rfl⟩,
   (claim_C10_incoming_event_gate false true 0 [] Json.null).2 rfl rfl⟩

end RMQEvh
